import Mathlib

set_option maxHeartbeats 1000000

/-!
Shallow embedding of the volume lifecycle manager of the
nfs-rest-gateway repository (gateway.go plus the main package file).

The observable state is the volumes bucket of the bolt database, the set
of filesystem directories the gateway has created, and the trace of
invocations of the external exportfs binary. Fallible external effects
(the exportfs binary, os.MkdirAll, bolt Bucket.Put and Bucket.Delete,
os.RemoveAll) are driven by a fault environment that says which calls
fail and with what message. bolt db.Update rolls the bucket back to its
pre-transaction contents when the transaction closure returns an error;
filesystem changes and command invocations made inside the closure are
of course not undone by that rollback, and the embedding keeps them.
-/

/-- Embedding of struct nfsExport in gateway.go. -/
structure nfsExport where
  Path : String
  Hosts : List String
  Options : String
deriving DecidableEq, Repr

/-- Embedding of struct volume in gateway.go. -/
structure volume where
  Name : String
  Export : nfsExport
deriving DecidableEq, Repr

/-- Value stored in the volumes bucket. bolt stores raw bytes: a stored
value either is the json.Marshal image of a volume record (the only
thing createVolume ever writes) or it is some other byte string, which
json.Unmarshal rejects. -/
inductive RecData where
  | vol (v : volume)
  | corrupt (raw : String)
deriving DecidableEq, Repr

/-- Embedding of json.Unmarshal into a volume value: succeeds exactly on
bytes produced by json.Marshal of a volume. -/
def unmarshalVolume : RecData → Except String volume
  | .vol v => .ok v
  | .corrupt raw => .error ("invalid volume json: " ++ raw)

/-- Embedding of bolt Bucket.Get on the volumes bucket. -/
def bGet : List (String × RecData) → String → Option RecData
  | [], _ => none
  | (k, d) :: rest, name => if k = name then some d else bGet rest name

/-- Embedding of bolt Bucket.Delete on the volumes bucket. -/
def bDel : List (String × RecData) → String → List (String × RecData)
  | [], _ => []
  | (k, d) :: rest, name =>
    if k = name then bDel rest name else (k, d) :: bDel rest name

/-- Embedding of bolt Bucket.Put on the volumes bucket: replaces any
entry stored under the key. -/
def bPut (st : List (String × RecData)) (k : String) (d : RecData) :
    List (String × RecData) :=
  (k, d) :: bDel st k

/-- Number of bucket entries stored under a key. -/
def countKey (st : List (String × RecData)) (k : String) : Nat :=
  (st.filter (fun p => p.1 = k)).length

/-- Observable system state: the volumes bucket, the directories the
gateway has created, and the trace of exportfs invocations (each entry
the argument list of one invocation of the binary). -/
structure SysState where
  store : List (String × RecData)
  dirs : List String
  calls : List (List String)
deriving DecidableEq, Repr

/-- Fault environment: the outcome of each external effect that can
fail. none means the call succeeds, some msg that it fails with that
message. cmdErr is keyed by the argument list of the invocation. -/
structure Env where
  cmdErr : List String → Option String
  mkdirErr : String → Option String
  putErr : Option String
  deleteErr : Option String
  removeErr : String → Option String

/-- Embedding of func cmd in gateway.go: runs the exportfs binary once
with the given arguments, recording the invocation in the trace, and
returns the wrapped error, nil on success. -/
def cmd (env : Env) (args : List String) (s : SysState) :
    SysState × Option String :=
  ({ s with calls := s.calls ++ [args] }, env.cmdErr args)

/-- Argument list built by the append loop in func exportfs in
gateway.go: per host, the options pair when Options is non-empty,
followed by the host:path token. -/
def exportfsArgs (v : volume) : List String :=
  v.Export.Hosts.foldl
    (fun args h =>
      (if v.Export.Options ≠ "" then args ++ ["-o", v.Export.Options] else args)
        ++ [h ++ ":" ++ v.Export.Path])
    []

/-- Embedding of func exportfs in gateway.go. -/
def exportfs (env : Env) (v : volume) (s : SysState) :
    SysState × Option String :=
  let r := cmd env (exportfsArgs v) s
  (r.1, r.2.map (fun m => "error making nfs export: " ++ m))

/-- Argument list built by func unexport in gateway.go: the -u flag
followed by one host:path token per host. -/
def unexportArgs (v : volume) : List String :=
  v.Export.Hosts.foldl (fun args h => args ++ [h ++ ":" ++ v.Export.Path]) ["-u"]

/-- Embedding of func unexport in gateway.go. -/
def unexport (env : Env) (v : volume) (s : SysState) :
    SysState × Option String :=
  let r := cmd env (unexportArgs v) s
  (r.1, r.2.map (fun m => "error unexporting nfs dir: " ++ m))

/-- Splits a character list at every slash; helper for the embedding of
Go path.Clean. -/
def splitSegsAux : List Char → List Char → List String
  | [], cur => [String.mk cur.reverse]
  | c :: rest, cur =>
    if c = '/' then String.mk cur.reverse :: splitSegsAux rest []
    else splitSegsAux rest (c :: cur)

/-- Segments of a path string, split at every slash. -/
def splitSegs (s : String) : List String := splitSegsAux s.data []

/-- Core loop of the embedding of Go path.Clean: processes segments left
to right against a stack held in reverse order, dropping empty and dot
segments and resolving dotdot segments lexically, exactly as the byte
loop in path.Clean does. -/
def cleanSegsAux (rooted : Bool) : List String → List String → List String
  | [], acc => acc.reverse
  | seg :: rest, acc =>
    if seg = "" ∨ seg = "." then cleanSegsAux rooted rest acc
    else if seg = ".." then
      match acc with
      | [] =>
        if rooted then cleanSegsAux rooted rest []
        else cleanSegsAux rooted rest [".."]
      | top :: acc2 =>
        if top = ".." then cleanSegsAux rooted rest (".." :: top :: acc2)
        else cleanSegsAux rooted rest acc2
    else cleanSegsAux rooted rest (seg :: acc)

/-- True when the path begins with a slash. -/
def isRooted (p : String) : Bool :=
  match p.data with
  | [] => false
  | c :: _ => c = '/'

/-- Joins segments with slashes, mirroring strings.Join with the slash
separator. -/
def joinSegs : List String → String
  | [] => ""
  | [s] => s
  | s :: rest => s ++ "/" ++ joinSegs rest

/-- Embedding of Go path.Clean, which is what filepath.Clean computes on
unix: lexical cleaning of a slash-separated path. -/
def pathClean (p : String) : String :=
  if p = "" then "."
  else
    let segs := cleanSegsAux (isRooted p) (splitSegs p) []
    if segs = [] then (if isRooted p then "/" else ".")
    else (if isRooted p then "/" else "") ++ joinSegs segs

/-- Embedding of filepath.Join on unix: drops leading empty elements,
joins the rest with slashes and cleans the result; empty when every
element is empty. -/
def filepathJoin (elems : List String) : String :=
  let ne := elems.dropWhile (fun e => e = "")
  if ne.isEmpty then "" else pathClean (joinSegs ne)

/-- Embedding of gateway.nfsPath: filepath.Join of the configured root,
the literal nfs component, and the volume name. -/
def nfsPath (root name : String) : String :=
  filepathJoin [root, "nfs", name]

/-- Effect of os.MkdirAll on the modeled directory set. Only the volume
directory itself is tracked; intermediate parents are elided. -/
def addDir (dirs : List String) (p : String) : List String :=
  if p ∈ dirs then dirs else dirs ++ [p]

/-- Embedding of struct CreateRequest in gateway.go. -/
structure CreateRequest where
  Hosts : List String
  Options : String
deriving DecidableEq, Repr

/-- Volume record constructed by createVolume for a fresh name. -/
def mkVolume (root name : String) (req : CreateRequest) : volume :=
  { Name := name
    Export :=
      { Hosts := req.Hosts
        Path := nfsPath root name
        Options := req.Options } }

/-- Body of the db.Update closure in gateway.createVolume: returns the
updated state, the captured volume pointer (none when the name already
existed) and the error handed back to db.Update. json.Marshal of a
volume record cannot fail, so that branch is elided. -/
def createTx (env : Env) (root name : String) (req : CreateRequest)
    (s : SysState) : SysState × Option volume × Option String :=
  match bGet s.store name with
  | some _ => (s, none, none)
  | none =>
    let v := mkVolume root name req
    match env.putErr with
    | some e => (s, some v, some ("error writing volume to database: " ++ e))
    | none =>
      let s1 : SysState := { s with store := bPut s.store name (RecData.vol v) }
      match env.mkdirErr v.Export.Path with
      | some e => (s1, some v, some ("error creating volume dir: " ++ e))
      | none =>
        let s2 : SysState := { s1 with dirs := addDir s1.dirs v.Export.Path }
        let r := exportfs env v s2
        (r.1, some v, r.2)

/-- Outcome written by the createVolume handler. -/
inductive CreateOutcome where
  | badRequest (msg : String)
  | conflict
  | internalError (msg : String)
  | created (v : volume)
deriving DecidableEq, Repr

/-- HTTP status code the createVolume handler writes for each outcome. -/
def createStatus : CreateOutcome → Nat
  | .badRequest _ => 400
  | .conflict => 409
  | .internalError _ => 500
  | .created _ => 200

/-- Embedding of gateway.createVolume after request decoding: the name
check, then the db.Update transaction. When the closure errors, bolt
rolls the bucket back to its pre-transaction contents, while directories
created and commands run inside the closure persist. -/
def createVolume (env : Env) (root name : String) (req : CreateRequest)
    (s : SysState) : SysState × CreateOutcome :=
  if name = "" then (s, .badRequest "must supply a name parameter")
  else
    let r := createTx env root name req s
    match r.2.2 with
    | some e => ({ r.1 with store := s.store }, .internalError e)
    | none =>
      match r.2.1 with
      | none => (r.1, .conflict)
      | some v => (r.1, .created v)

/-- Outcome written by the getVolume handler. -/
inductive GetOutcome where
  | badRequest (msg : String)
  | notFound
  | internalError (msg : String)
  | found (Name Path : String)
deriving DecidableEq, Repr

/-- Embedding of gateway.getVolume: a read-only lookup with no side
effects. -/
def getVolume (name : String) (s : SysState) : GetOutcome :=
  if name = "" then .badRequest "name parameter must be set"
  else
    match bGet s.store name with
    | none => .notFound
    | some d =>
      match unmarshalVolume d with
      | .error e =>
        .internalError
          ("error reading from database: error unmarshaling volume data from database: " ++ e)
      | .ok v => .found v.Name v.Export.Path

/-- Outcome written by the deleteVolume handler. -/
inductive DeleteOutcome where
  | badRequest (msg : String)
  | internalError (msg : String)
  | ok
deriving DecidableEq, Repr

/-- Body of the db.Update closure in gateway.deleteVolume. When
Bucket.Delete fails, the wrapped error built on line 195 of gateway.go
is discarded (there is no return), so execution continues with the key
still present. os.RemoveAll failures satisfying os.IsNotExist are
treated as success by the code and are folded into the success case of
removeErr. -/
def deleteTx (env : Env) (name : String) (s : SysState) :
    SysState × Option String :=
  match bGet s.store name with
  | none => (s, none)
  | some data =>
    let s1 : SysState :=
      match env.deleteErr with
      | some _ => s
      | none => { s with store := bDel s.store name }
    match unmarshalVolume data with
    | .error e => (s1, some ("error unmarshaling volume from database: " ++ e))
    | .ok v =>
      let r := unexport env v s1
      match r.2 with
      | some e => (r.1, some e)
      | none =>
        match env.removeErr v.Export.Path with
        | some e => (r.1, some ("error removing volume data: " ++ e))
        | none => ({ r.1 with dirs := r.1.dirs.erase v.Export.Path }, none)

/-- Embedding of gateway.deleteVolume: the name check, then the
db.Update transaction; bolt rolls the bucket back when the closure
returns an error. -/
def deleteVolume (env : Env) (name : String) (s : SysState) :
    SysState × DeleteOutcome :=
  if name = "" then (s, .badRequest "must provide name parameter")
  else
    let r := deleteTx env name s
    match r.2 with
    | some e => ({ r.1 with store := s.store }, .internalError e)
    | none => (r.1, .ok)

/-- Embedding of gateway.Shutdown: a single retract-everything
invocation of the external binary; its error is only logged, and the
record store is not touched. -/
def Shutdown (env : Env) (s : SysState) : SysState :=
  (cmd env ["-ua"] s).1

/-- Embedding of the Bucket.ForEach closure in gateway.Reload, iterating
the persisted records in bucket order: an unmarshal failure is returned,
which makes ForEach stop and Reload return the error, while an exportfs
failure is only logged and the iteration continues. -/
def reloadLoop (env : Env) :
    List (String × RecData) → SysState → SysState × Option String
  | [], s => (s, none)
  | (_, d) :: rest, s =>
    match unmarshalVolume d with
    | .error e => (s, some ("error unmarshaling volume from database: " ++ e))
    | .ok v => reloadLoop env rest (exportfs env v s).1

/-- Embedding of gateway.Reload: a read-only transaction over every
persisted record. -/
def Reload (env : Env) (s : SysState) : SysState × Option String :=
  reloadLoop env s.store s

/-- Startup behavior of main in the main package file: exitOnError
terminates the process exactly when Reload returns an error. -/
def mainReloadExits (env : Env) (s : SysState) : Bool :=
  ((Reload env s).2).isSome

/-- Character list a is an initial run of character list b. -/
def charsStart : List Char → List Char → Bool
  | [], _ => true
  | _ :: _, [] => false
  | a :: as, b :: bs => a = b && charsStart as bs

/-- String p is an initial run of string s. -/
def strStarts (p s : String) : Bool := charsStart p.data s.data

-- Concrete fixtures used by witnesses and counterexamples.

/-- Environment in which every external effect succeeds. -/
def envOk : Env :=
  { cmdErr := fun _ => none
    mkdirErr := fun _ => none
    putErr := none
    deleteErr := none
    removeErr := fun _ => none }

/-- Environment in which every invocation of the external binary fails. -/
def envCmdFail : Env :=
  { cmdErr := fun _ => some "exportfs failed"
    mkdirErr := fun _ => none
    putErr := none
    deleteErr := none
    removeErr := fun _ => none }

/-- Environment in which the bucket Delete call fails and everything
else succeeds. -/
def envDelFail : Env :=
  { cmdErr := fun _ => none
    mkdirErr := fun _ => none
    putErr := none
    deleteErr := some "bolt delete failed"
    removeErr := fun _ => none }

/-- Empty initial state. -/
def stEmpty : SysState := { store := [], dirs := [], calls := [] }

/-- Sample persisted volume. -/
def vol1 : volume := mkVolume "/data" "foo" { Hosts := ["10.0.0.1"], Options := "rw" }

/-- State holding the sample volume with its directory in place. -/
def st1 : SysState :=
  { store := [("foo", RecData.vol vol1)]
    dirs := ["/data/nfs/foo"]
    calls := [] }

-- Sanity checks of the embedding on concrete inputs.
example : nfsPath "/var/lib/nfsg" "foo" = "/var/lib/nfsg/nfs/foo" := by decide
example : nfsPath "/data" ".." = "/data" := by decide
example : nfsPath "/data" "../../etc" = "/etc" := by decide
example :
    exportfsArgs
      { Name := "a"
        Export := { Path := "/p", Hosts := ["h1", "h2"], Options := "rw" } } =
      ["-o", "rw", "h1:/p", "-o", "rw", "h2:/p"] := by decide
example :
    unexportArgs
      { Name := "a"
        Export := { Path := "/p", Hosts := ["h1", "h2"], Options := "rw" } } =
      ["-u", "h1:/p", "h2:/p"] := by decide

-- Helper lemmas shared by the claim theorems.

/-- Looking up a key right after storing it finds the stored value. -/
lemma bGet_bPut_self (st : List (String × RecData)) (k : String) (d : RecData) :
    bGet (bPut st k d) k = some d := by
  simp [bPut, bGet]

/-- Deleting a key removes every entry under it. -/
lemma countKey_bDel_self (st : List (String × RecData)) (k : String) :
    countKey (bDel st k) k = 0 := by
  induction st with
  | nil => simp [bDel, countKey]
  | cons p rest ih =>
    by_cases h : p.1 = k <;> simp [bDel, countKey, h] <;>
      simpa [countKey] using ih

/-- Storing under a key leaves exactly one entry under it. -/
lemma countKey_bPut_self (st : List (String × RecData)) (k : String) (d : RecData) :
    countKey (bPut st k d) k = 1 := by
  simp [bPut, countKey]
  simpa [countKey] using countKey_bDel_self st k

/-- Generic shape of the append loops in exportfs and unexport. -/
lemma foldl_append_bind (g : String → List String) (l : List String)
    (acc : List String) :
    l.foldl (fun args h => args ++ g h) acc = acc ++ l.flatMap g := by
  induction l generalizing acc with
  | nil => simp
  | cons h t ih => simp [ih, List.append_assoc]

/-- The exportfs argument loop is the per-host block flattened in host
order. -/
lemma exportfsArgs_eq_bind (v : volume) :
    exportfsArgs v =
      v.Export.Hosts.flatMap
        (fun h =>
          (if v.Export.Options = "" then [] else ["-o", v.Export.Options])
            ++ [h ++ ":" ++ v.Export.Path]) := by
  unfold exportfsArgs
  by_cases ho : v.Export.Options = ""
  · simpa [ho] using
      foldl_append_bind (fun h => [h ++ ":" ++ v.Export.Path]) v.Export.Hosts []
  · simpa [ho, List.append_assoc] using
      foldl_append_bind
        (fun h => ["-o", v.Export.Options] ++ [h ++ ":" ++ v.Export.Path])
        v.Export.Hosts []

/-- The unexport argument loop is the -u flag followed by one host:path
token per host. -/
lemma unexportArgs_eq_map (v : volume) :
    unexportArgs v = "-u" :: v.Export.Hosts.map (fun h => h ++ ":" ++ v.Export.Path) := by
  unfold unexportArgs
  induction v.Export.Hosts using List.reverseRecOn with
  | nil => simp
  | append_singleton t h ih => simp [ih]

/-- C5: delete is idempotent on absent names: for a name not present in
the store, deleteVolume succeeds as a no-op, leaves the whole state
(store, directories and invocation trace) unchanged, and issues no
export-retract invocation; doing it twice behaves the same way, so a
second delete never errors and never retracts again. -/
theorem delete_absent_idempotent (env env2 : Env) (name : String)
    (s : SysState) (hname : name ≠ "") (h : bGet s.store name = none) :
    deleteVolume env name s = (s, DeleteOutcome.ok) ∧
      deleteVolume env2 name (deleteVolume env name s).1 = (s, DeleteOutcome.ok) := by
  have h1 : deleteVolume env name s = (s, DeleteOutcome.ok) := by
    simp [deleteVolume, deleteTx, hname, h]
  refine ⟨h1, ?_⟩
  rw [h1]
  simp [deleteVolume, deleteTx, hname, h]

/-- Witness for delete_absent_idempotent at a concrete absent name. -/
theorem delete_absent_idempotent_witness :
    deleteVolume envOk "ghost" st1 = (st1, DeleteOutcome.ok) ∧
      deleteVolume envCmdFail "ghost" (deleteVolume envOk "ghost" st1).1 =
        (st1, DeleteOutcome.ok) :=
  delete_absent_idempotent envOk envCmdFail "ghost" st1 (by decide) (by decide)

/-- C6: creating a name that already has a record performs no side
effects at all (the state, including the store, the directories and the
invocation trace, is returned unchanged, so the existing record is
untouched) and reports the conflict outcome, whose HTTP status 409 is
distinct from the 500 used for internal errors. -/
theorem create_conflict_no_side_effects (env : Env) (root name : String)
    (req : CreateRequest) (s : SysState) (d : RecData)
    (hname : name ≠ "") (h : bGet s.store name = some d) :
    createVolume env root name req s = (s, CreateOutcome.conflict) ∧
      createStatus CreateOutcome.conflict = 409 ∧
      createStatus CreateOutcome.conflict ≠ createStatus (CreateOutcome.internalError "") := by
  refine ⟨?_, rfl, by decide⟩
  simp [createVolume, createTx, hname, h]

/-- Witness for create_conflict_no_side_effects on a stored name. -/
theorem create_conflict_no_side_effects_witness :
    createVolume envOk "/data" "foo" { Hosts := [], Options := "" } st1 =
        (st1, CreateOutcome.conflict) ∧
      createStatus CreateOutcome.conflict = 409 ∧
      createStatus CreateOutcome.conflict ≠ createStatus (CreateOutcome.internalError "") :=
  create_conflict_no_side_effects envOk "/data" "foo"
    { Hosts := [], Options := "" } st1 (RecData.vol vol1) (by decide) (by decide)

/-- C7: both projector operations are deterministic functions of the
volume value that invoke the external mechanism exactly once (the trace
grows by exactly one invocation and nothing else changes): apply passes,
per host in order, the options pair when Options is non-empty followed
by the host:path token, and retract passes the -u flag followed by one
host:path token per host. -/
theorem projector_args_batched (env : Env) (v : volume) (s : SysState) :
    exportfsArgs v =
      v.Export.Hosts.flatMap
        (fun h =>
          (if v.Export.Options = "" then [] else ["-o", v.Export.Options])
            ++ [h ++ ":" ++ v.Export.Path]) ∧
    unexportArgs v = "-u" :: v.Export.Hosts.map (fun h => h ++ ":" ++ v.Export.Path) ∧
    (exportfs env v s).1 = { s with calls := s.calls ++ [exportfsArgs v] } ∧
    (unexport env v s).1 = { s with calls := s.calls ++ [unexportArgs v] } :=
  ⟨exportfsArgs_eq_bind v, unexportArgs_eq_map v, rfl, rfl⟩

/-- C9: Shutdown performs exactly one retract-everything invocation of
the external mechanism: the trace grows by the single -ua invocation
while the record store and the directories are untouched, and no error
is ever returned (the result is just the state, so invocation failures
cannot propagate). -/
theorem shutdown_single_retract_all (env : Env) (s : SysState) :
    Shutdown env s = { s with calls := s.calls ++ [["-ua"]] } := rfl

/-- Path field of the record createVolume builds. -/
lemma mkVolume_Path (root name : String) (req : CreateRequest) :
    (mkVolume root name req).Export.Path = nfsPath root name := rfl

/-- C1 counterexample: the claim that after a failed export-apply no
backing directory remains is false. From the empty state, a create whose
exportfs invocation fails leaves the volume directory on the filesystem
(the bolt rollback undoes only the bucket write, not the MkdirAll done
inside the transaction closure). -/
theorem create_apply_fail_dir_remains_cx :
    (createVolume envCmdFail "/data" "foo" { Hosts := ["10.0.0.1"], Options := "" }
        stEmpty).1.dirs = ["/data/nfs/foo"] ∧
      (createVolume envCmdFail "/data" "foo" { Hosts := ["10.0.0.1"], Options := "" }
        stEmpty).1.dirs ≠ stEmpty.dirs := by decide

/-- C1 amended: when the export-apply step of create fails, the record
write is rolled back, so the store is unchanged and a subsequent get on
the name reports not-found, and the error is surfaced to the caller; but
the backing directory created by MkdirAll inside the transaction is not
removed and remains on the filesystem. -/
theorem create_apply_fail_rolls_back_record_not_dir (env : Env)
    (root name : String) (req : CreateRequest) (s : SysState) (e : String)
    (hname : name ≠ "")
    (hget : bGet s.store name = none)
    (hput : env.putErr = none)
    (hmk : env.mkdirErr (nfsPath root name) = none)
    (hcmd : env.cmdErr (exportfsArgs (mkVolume root name req)) = some e) :
    createVolume env root name req s =
        ({ store := s.store
           dirs := addDir s.dirs (nfsPath root name)
           calls := s.calls ++ [exportfsArgs (mkVolume root name req)] },
          CreateOutcome.internalError ("error making nfs export: " ++ e)) ∧
      getVolume name (createVolume env root name req s).1 = GetOutcome.notFound := by
  have h1 : createVolume env root name req s =
      ({ store := s.store
         dirs := addDir s.dirs (nfsPath root name)
         calls := s.calls ++ [exportfsArgs (mkVolume root name req)] },
        CreateOutcome.internalError ("error making nfs export: " ++ e)) := by
    simp [createVolume, createTx, exportfs, cmd, mkVolume_Path,
      hname, hget, hput, hmk, hcmd]
  refine ⟨h1, ?_⟩
  rw [h1]
  simp [getVolume, hname, hget]

/-- Witness for create_apply_fail_rolls_back_record_not_dir from the
empty state with an always-failing external binary. -/
theorem create_apply_fail_rolls_back_record_not_dir_witness :
    createVolume envCmdFail "/data" "foo" { Hosts := ["10.0.0.1"], Options := "" }
        stEmpty =
        ({ store := stEmpty.store
           dirs := addDir stEmpty.dirs (nfsPath "/data" "foo")
           calls := stEmpty.calls ++
             [exportfsArgs (mkVolume "/data" "foo" { Hosts := ["10.0.0.1"], Options := "" })] },
          CreateOutcome.internalError ("error making nfs export: " ++ "exportfs failed")) ∧
      getVolume "foo"
        (createVolume envCmdFail "/data" "foo" { Hosts := ["10.0.0.1"], Options := "" }
          stEmpty).1 = GetOutcome.notFound :=
  create_apply_fail_rolls_back_record_not_dir envCmdFail "/data" "foo"
    { Hosts := ["10.0.0.1"], Options := "" } stEmpty "exportfs failed"
    (by decide) (by decide) rfl rfl rfl

/-- C2 counterexample: the claim that a failed export-retract still
leaves the record deleted is false. For the persisted sample volume,
when the unexport invocation fails, the transaction closure returns the
error and bolt rolls the bucket back, so the record is still present and
get does not report not-found. -/
theorem delete_retract_fail_record_remains_cx :
    bGet ((deleteVolume envCmdFail "foo" st1).1).store "foo" = some (RecData.vol vol1) ∧
      getVolume "foo" ((deleteVolume envCmdFail "foo" st1).1) ≠ GetOutcome.notFound := by
  decide

/-- C2 amended: when the export-retract step of delete fails on a
persisted volume, the retract error is surfaced to the caller, but the
record deletion is rolled back with the rest of the transaction: the
record is still present afterwards, so get still finds it, and the
directory is untouched. -/
theorem delete_retract_fail_rolls_back (env : Env) (name : String)
    (s : SysState) (v : volume) (e : String)
    (hname : name ≠ "")
    (hget : bGet s.store name = some (RecData.vol v))
    (hdel : env.deleteErr = none)
    (hcmd : env.cmdErr (unexportArgs v) = some e) :
    deleteVolume env name s =
        ({ store := s.store
           dirs := s.dirs
           calls := s.calls ++ [unexportArgs v] },
          DeleteOutcome.internalError ("error unexporting nfs dir: " ++ e)) ∧
      bGet (deleteVolume env name s).1.store name = some (RecData.vol v) := by
  have h1 : deleteVolume env name s =
      ({ store := s.store
         dirs := s.dirs
         calls := s.calls ++ [unexportArgs v] },
        DeleteOutcome.internalError ("error unexporting nfs dir: " ++ e)) := by
    simp [deleteVolume, deleteTx, unexport, cmd, unmarshalVolume, hname, hget, hdel, hcmd]
  refine ⟨h1, ?_⟩
  rw [h1]
  exact hget

/-- Witness for delete_retract_fail_rolls_back on the persisted sample
volume with an always-failing external binary. -/
theorem delete_retract_fail_rolls_back_witness :
    deleteVolume envCmdFail "foo" st1 =
        ({ store := st1.store
           dirs := st1.dirs
           calls := st1.calls ++ [unexportArgs vol1] },
          DeleteOutcome.internalError ("error unexporting nfs dir: " ++ "exportfs failed")) ∧
      bGet (deleteVolume envCmdFail "foo" st1).1.store "foo" = some (RecData.vol vol1) :=
  delete_retract_fail_rolls_back envCmdFail "foo" st1 vol1 "exportfs failed"
    (by decide) (by decide) rfl rfl

/-- C8: when the bucket Delete call inside deleteVolume fails, the
wrapped error is discarded: the operation goes on to retract the export
(the -u invocation is recorded) and remove the directory, and reports
overall success even though the key was never removed from the store. -/
theorem delete_store_error_discarded (env : Env) (name : String)
    (s : SysState) (v : volume) (e : String)
    (hname : name ≠ "")
    (hget : bGet s.store name = some (RecData.vol v))
    (hdel : env.deleteErr = some e)
    (hcmd : env.cmdErr (unexportArgs v) = none)
    (hrem : env.removeErr v.Export.Path = none) :
    deleteVolume env name s =
        ({ store := s.store
           dirs := s.dirs.erase v.Export.Path
           calls := s.calls ++ [unexportArgs v] },
          DeleteOutcome.ok) ∧
      bGet (deleteVolume env name s).1.store name = some (RecData.vol v) := by
  have h1 : deleteVolume env name s =
      ({ store := s.store
         dirs := s.dirs.erase v.Export.Path
         calls := s.calls ++ [unexportArgs v] },
        DeleteOutcome.ok) := by
    simp [deleteVolume, deleteTx, unexport, cmd, unmarshalVolume,
      hname, hget, hdel, hcmd, hrem]
  refine ⟨h1, ?_⟩
  rw [h1]
  exact hget

/-- Witness for delete_store_error_discarded on the persisted sample
volume with a failing bucket Delete. -/
theorem delete_store_error_discarded_witness :
    deleteVolume envDelFail "foo" st1 =
        ({ store := st1.store
           dirs := st1.dirs.erase vol1.Export.Path
           calls := st1.calls ++ [unexportArgs vol1] },
          DeleteOutcome.ok) ∧
      bGet (deleteVolume envDelFail "foo" st1).1.store "foo" = some (RecData.vol vol1) :=
  delete_store_error_discarded envDelFail "foo" st1 vol1 "bolt delete failed"
    (by decide) (by decide) rfl rfl rfl

/-- C10: with the record-store transactions serialized (the bolt Update
transactions of the two requests execute one after the other, which is
the isolation bolt provides), two creates for the same name from a state
where the name is absent produce exactly one created outcome and one
conflict outcome, and the store afterwards holds exactly one record
under the name. Quantifying over both request bodies covers both
serialization orders. -/
theorem concurrent_create_one_success_one_conflict (env : Env)
    (root name : String) (r1 r2 : CreateRequest) (s : SysState)
    (hname : name ≠ "")
    (hget : bGet s.store name = none)
    (hput : env.putErr = none)
    (hmk : env.mkdirErr (nfsPath root name) = none)
    (hcmd : env.cmdErr (exportfsArgs (mkVolume root name r1)) = none) :
    (createVolume env root name r1 s).2 = CreateOutcome.created (mkVolume root name r1) ∧
      (createVolume env root name r2 (createVolume env root name r1 s).1).2 =
        CreateOutcome.conflict ∧
      countKey ((createVolume env root name r2 (createVolume env root name r1 s).1).1).store
        name = 1 := by
  have h1 : createVolume env root name r1 s =
      ({ store := bPut s.store name (RecData.vol (mkVolume root name r1))
         dirs := addDir s.dirs (nfsPath root name)
         calls := s.calls ++ [exportfsArgs (mkVolume root name r1)] },
        CreateOutcome.created (mkVolume root name r1)) := by
    simp [createVolume, createTx, exportfs, cmd, mkVolume_Path,
      hname, hget, hput, hmk, hcmd]
  have h2 : createVolume env root name r2 (createVolume env root name r1 s).1 =
      ((createVolume env root name r1 s).1, CreateOutcome.conflict) := by
    rw [h1]
    simp [createVolume, createTx, hname, bGet_bPut_self]
  refine ⟨by rw [h1], by rw [h2], ?_⟩
  rw [h2]
  rw [h1]
  exact countKey_bPut_self s.store name _

/-- Witness for concurrent_create_one_success_one_conflict: two creates
for the same fresh name from the empty state. -/
theorem concurrent_create_one_success_one_conflict_witness :
    (createVolume envOk "/data" "foo" { Hosts := ["10.0.0.1"], Options := "rw" }
        stEmpty).2 =
      CreateOutcome.created (mkVolume "/data" "foo" { Hosts := ["10.0.0.1"], Options := "rw" }) ∧
      (createVolume envOk "/data" "foo" { Hosts := ["10.0.0.2"], Options := "" }
        (createVolume envOk "/data" "foo" { Hosts := ["10.0.0.1"], Options := "rw" }
          stEmpty).1).2 = CreateOutcome.conflict ∧
      countKey ((createVolume envOk "/data" "foo" { Hosts := ["10.0.0.2"], Options := "" }
        (createVolume envOk "/data" "foo" { Hosts := ["10.0.0.1"], Options := "rw" }
          stEmpty).1).1).store "foo" = 1 :=
  concurrent_create_one_success_one_conflict envOk "/data" "foo"
    { Hosts := ["10.0.0.1"], Options := "rw" } { Hosts := ["10.0.0.2"], Options := "" }
    stEmpty (by decide) (by decide) rfl rfl rfl

/-- Second sample persisted volume. -/
def vol2 : volume := mkVolume "/data" "bar" { Hosts := ["10.0.0.2"], Options := "" }

/-- State whose first persisted record does not unmarshal and whose
second one does. -/
def stCorrupt : SysState :=
  { store := [("bad", RecData.corrupt "xx"), ("bar", RecData.vol vol2)]
    dirs := []
    calls := [] }

/-- State holding two well-formed persisted records. -/
def stTwo : SysState :=
  { store := [("foo", RecData.vol vol1), ("bar", RecData.vol vol2)]
    dirs := ["/data/nfs/foo", "/data/nfs/bar"]
    calls := [] }

/-- Environment in which only the export of the first sample volume
fails. -/
def envOneFail : Env :=
  { cmdErr := fun args => if args = exportfsArgs vol1 then some "exportfs failed" else none
    mkdirErr := fun _ => none
    putErr := none
    deleteErr := none
    removeErr := fun _ => none }

/-- C3 counterexample: the claim that any per-volume failure during
reload is logged only and never aborts the iteration is false. With a
persisted record that fails to unmarshal, Reload returns the wrapped
error, the remaining record is never exported (the trace stays empty),
and main, which passes the Reload error to exitOnError, terminates the
process. -/
theorem reload_corrupt_record_aborts_cx :
    (Reload envOk stCorrupt).2 =
        some "error unmarshaling volume from database: invalid volume json: xx" ∧
      (Reload envOk stCorrupt).1.calls = [] ∧
      mainReloadExits envOk stCorrupt = true := by decide

/-- Invocation a persisted record contributes on reload. -/
def recArgs : RecData → List String
  | .vol v => exportfsArgs v
  | .corrupt _ => []

/-- Reload loop over records that all unmarshal: every record is
exported and no error is returned, whatever the export outcomes are. -/
lemma reloadLoop_all_wellformed (env : Env) (l : List (String × RecData))
    (s : SysState) (h : ∀ p ∈ l, ∃ v, p.2 = RecData.vol v) :
    reloadLoop env l s =
      ({ s with calls := s.calls ++ l.map (fun p => recArgs p.2) }, none) := by
  induction l generalizing s with
  | nil => simp [reloadLoop]
  | cons p t ih =>
    obtain ⟨v, hv⟩ := h p (by simp)
    have ht : ∀ q ∈ t, ∃ w, q.2 = RecData.vol w := fun q hq => h q (by simp [hq])
    obtain ⟨k, d⟩ := p
    simp only at hv
    subst hv
    simp [reloadLoop, unmarshalVolume, exportfs, cmd, ih _ ht, recArgs]

/-- C3 amended: reload iterates all persisted records and re-applies
each export as long as every record unmarshals: in that case a failure
of any single export-apply invocation is logged only, never aborts the
iteration over the remaining records and never makes Reload return an
error, so main does not exit; but a record that fails to unmarshal makes
Reload return an error, skipping the remaining records and terminating
the process via exitOnError in main. -/
theorem reload_apply_failures_logged_only (env : Env) (s : SysState)
    (h : ∀ p ∈ s.store, ∃ v, p.2 = RecData.vol v) :
    Reload env s =
        ({ s with calls := s.calls ++ s.store.map (fun p => recArgs p.2) }, none) ∧
      mainReloadExits env s = false := by
  have h1 : Reload env s =
      ({ s with calls := s.calls ++ s.store.map (fun p => recArgs p.2) }, none) :=
    reloadLoop_all_wellformed env s.store s h
  exact ⟨h1, by simp [mainReloadExits, h1]⟩

/-- Witness for reload_apply_failures_logged_only: two well-formed
records, the export of the first one failing; both are still invoked and
no error is returned. -/
theorem reload_apply_failures_logged_only_witness :
    Reload envOneFail stTwo =
        ({ stTwo with calls := stTwo.calls ++ stTwo.store.map (fun p => recArgs p.2) }, none) ∧
      mainReloadExits envOneFail stTwo = false :=
  reload_apply_failures_logged_only envOneFail stTwo
    (by
      intro p hp
      simp only [stTwo, List.mem_cons, List.not_mem_nil, or_false] at hp
      rcases hp with h | h <;> exact ⟨_, by rw [h]⟩)

/-- Rebuilding a string from its characters is the identity. -/
lemma strMk_data (s : String) : String.mk s.data = s := rfl

/-- Splitting step at a slash. -/
lemma splitSegsAux_slash (l cur : List Char) :
    splitSegsAux ('/' :: l) cur = String.mk cur.reverse :: splitSegsAux l [] := by
  simp [splitSegsAux]

/-- Splitting step at a non-slash character. -/
lemma splitSegsAux_cons_ne (c : Char) (l cur : List Char) (h : ¬ c = '/') :
    splitSegsAux (c :: l) cur = splitSegsAux l (c :: cur) := by
  simp [splitSegsAux, h]

/-- Splitting a slash-free character list yields a single segment. -/
lemma splitSegsAux_no_slash (l : List Char) (h : ∀ c ∈ l, c ≠ '/') :
    ∀ cur : List Char, splitSegsAux l cur = [String.mk (cur.reverse ++ l)] := by
  induction l with
  | nil => intro cur; simp [splitSegsAux]
  | cons c t ih =>
    intro cur
    have hc : ¬ c = '/' := h c (by simp)
    rw [splitSegsAux_cons_ne c t cur hc,
      ih (fun x hx => h x (by simp [hx])) (c :: cur)]
    simp

/-- A character list is an initial run of itself followed by anything. -/
lemma charsStart_append (l m : List Char) : charsStart l (l ++ m) = true := by
  induction l with
  | nil => simp [charsStart]
  | cons c t ih => simp [charsStart, ih]

/-- A string is an initial run of itself followed by anything. -/
lemma strStarts_append (p n : String) : strStarts p (p ++ n) = true := by
  unfold strStarts
  rw [String.data_append]
  exact charsStart_append p.data n.data

/-- Concatenation of the default root pieces around the name. -/
lemma concat_default (name : String) :
    "/var/lib/nfsg" ++ "/" ++ ("nfs" ++ "/" ++ name) = "/var/lib/nfsg/nfs/" ++ name := by
  rw [← String.append_assoc]
  have h : "/var/lib/nfsg" ++ "/" ++ ("nfs" ++ "/") = "/var/lib/nfsg/nfs/" := by decide
  rw [h]

/-- The default volume path is never the empty string. -/
lemma default_path_ne_empty (name : String) : "/var/lib/nfsg/nfs/" ++ name ≠ "" := by
  intro h
  have h2 := congrArg String.data h
  simp only [String.data_append] at h2
  have h3 := congrArg List.length h2
  rw [List.length_append] at h3
  have h4 : "/var/lib/nfsg/nfs/".data.length = 18 := by decide
  have h5 : ("" : String).data.length = 0 := by decide
  rw [h4, h5] at h3
  omega

/-- The default volume path is rooted. -/
lemma default_path_rooted (name : String) :
    isRooted ("/var/lib/nfsg/nfs/" ++ name) = true := by
  unfold isRooted
  rw [String.data_append]
  have h : "/var/lib/nfsg/nfs/".data = '/' :: "var/lib/nfsg/nfs/".data := by decide
  rw [h]
  simp

/-- Segments of the default volume path of a slash-free name. -/
lemma splitSegs_default (name : String) (hs : ∀ c ∈ name.data, c ≠ '/') :
    splitSegs ("/var/lib/nfsg/nfs/" ++ name) =
      ["", "var", "lib", "nfsg", "nfs", name] := by
  unfold splitSegs
  rw [String.data_append]
  have hd : "/var/lib/nfsg/nfs/".data =
      ['/', 'v', 'a', 'r', '/', 'l', 'i', 'b', '/', 'n', 'f', 's', 'g', '/',
        'n', 'f', 's', '/'] := by decide
  rw [hd]
  simp only [List.cons_append, List.nil_append]
  rw [splitSegsAux_slash]
  rw [splitSegsAux_cons_ne _ _ _ (by decide)]
  rw [splitSegsAux_cons_ne _ _ _ (by decide)]
  rw [splitSegsAux_cons_ne _ _ _ (by decide)]
  rw [splitSegsAux_slash]
  rw [splitSegsAux_cons_ne _ _ _ (by decide)]
  rw [splitSegsAux_cons_ne _ _ _ (by decide)]
  rw [splitSegsAux_cons_ne _ _ _ (by decide)]
  rw [splitSegsAux_slash]
  rw [splitSegsAux_cons_ne _ _ _ (by decide)]
  rw [splitSegsAux_cons_ne _ _ _ (by decide)]
  rw [splitSegsAux_cons_ne _ _ _ (by decide)]
  rw [splitSegsAux_cons_ne _ _ _ (by decide)]
  rw [splitSegsAux_slash]
  rw [splitSegsAux_cons_ne _ _ _ (by decide)]
  rw [splitSegsAux_cons_ne _ _ _ (by decide)]
  rw [splitSegsAux_cons_ne _ _ _ (by decide)]
  rw [splitSegsAux_slash]
  rw [splitSegsAux_no_slash name.data hs []]
  simp only [List.reverse_nil, List.reverse_cons, List.nil_append, List.cons_append]

/-- Cleaning the segments of the default volume path of a clean name is
the identity apart from the leading empty segment. -/
lemma cleanSegs_default (name : String)
    (hne : name ≠ "") (hdot : name ≠ ".") (hdd : name ≠ "..") :
    cleanSegsAux true ["", "var", "lib", "nfsg", "nfs", name] [] =
      ["var", "lib", "nfsg", "nfs", name] := by
  have hno : ¬ (name = "" ∨ name = ".") := by simp [hne, hdot]
  simp [cleanSegsAux, hno, hdd]

/-- For a clean single-component name, the volume path under the default
root is the name inside the nfs directory. -/
lemma nfsPath_default (name : String)
    (hne : name ≠ "") (hdot : name ≠ ".") (hdd : name ≠ "..")
    (hs : ∀ c ∈ name.data, c ≠ '/') :
    nfsPath "/var/lib/nfsg" name = "/var/lib/nfsg/nfs/" ++ name := by
  have hjoin : nfsPath "/var/lib/nfsg" name =
      pathClean ("/var/lib/nfsg" ++ "/" ++ ("nfs" ++ "/" ++ name)) := rfl
  rw [hjoin, concat_default]
  unfold pathClean
  rw [if_neg (default_path_ne_empty name)]
  rw [splitSegs_default name hs, default_path_rooted name,
    cleanSegs_default name hne hdot hdd]
  simp only [List.cons_ne_self, joinSegs, if_neg]
  apply String.ext
  simp [List.append_assoc]

/-- C4 counterexample: the claim that the created path always equals
root/nfs/name and cannot escape the nfs directory is false for names
with dotdot components: filepath.Join cleans the joined path, so the
name ../../etc yields /etc, which is outside /data/nfs. -/
theorem nfsPath_traversal_cx :
    nfsPath "/data" "../../etc" = "/etc" ∧
      nfsPath "/data" "../../etc" ≠ "/data" ++ "/nfs/" ++ "../../etc" ∧
      strStarts "/data/nfs/" (nfsPath "/data" "../../etc") = false := by decide

/-- C4 amended: the volume path is a deterministic function of the root
and the name alone, independent of the supplied hosts and options, and
for every name that is a clean single component (non-empty, not a dot or
dotdot, containing no slash) it equals root/nfs/name under the default
root and lies strictly inside the nfs directory; names containing dotdot
components, however, are cleaned by filepath.Join and can escape the nfs
directory. -/
theorem nfsPath_clean_component_inside (name : String)
    (req1 req2 : CreateRequest)
    (hne : name ≠ "") (hdot : name ≠ ".") (hdd : name ≠ "..")
    (hs : ∀ c ∈ name.data, c ≠ '/') :
    nfsPath "/var/lib/nfsg" name = "/var/lib/nfsg/nfs/" ++ name ∧
      strStarts "/var/lib/nfsg/nfs/" (nfsPath "/var/lib/nfsg" name) = true ∧
      (mkVolume "/var/lib/nfsg" name req1).Export.Path =
        (mkVolume "/var/lib/nfsg" name req2).Export.Path := by
  have h := nfsPath_default name hne hdot hdd hs
  refine ⟨h, ?_, rfl⟩
  rw [h]
  exact strStarts_append _ _

/-- Witness for nfsPath_clean_component_inside at the name data1 with
two different request bodies. -/
theorem nfsPath_clean_component_inside_witness :
    nfsPath "/var/lib/nfsg" "data1" = "/var/lib/nfsg/nfs/" ++ "data1" ∧
      strStarts "/var/lib/nfsg/nfs/" (nfsPath "/var/lib/nfsg" "data1") = true ∧
      (mkVolume "/var/lib/nfsg" "data1"
          { Hosts := ["10.0.0.0/24"], Options := "rw" }).Export.Path =
        (mkVolume "/var/lib/nfsg" "data1" { Hosts := [], Options := "" }).Export.Path :=
  nfsPath_clean_component_inside "data1"
    { Hosts := ["10.0.0.0/24"], Options := "rw" } { Hosts := [], Options := "" }
    (by decide) (by decide) (by decide) (by decide)
